import Mathlib

/-!
Shallow embedding of the traffic-to-route matching and duration-estimation
engine of the ets-its-api repository (src/api.py and src/route_processor.py).
Numeric values are modelled as rationals; Python dicts become structures;
the PostGIS store becomes an abstract query function.
-/

/-- One step of a route leg, carrying the road name (src/api.py, steps). -/
structure Step where
  name : String
deriving Repr, DecidableEq

/-- One leg of a route, a list of steps (src/api.py, legs). -/
structure Leg where
  steps : List Step
deriving Repr, DecidableEq

/-- A nested route inside result[0].routes, as traversed by
_extract_route_roads (src/api.py lines 375-392). -/
structure NestedRoute where
  legs : List Leg
deriving Repr, DecidableEq

/-- One element of route_data['result'] (src/api.py line 377). -/
structure ResultItem where
  routes : List NestedRoute
deriving Repr, DecidableEq

/-- The route_data record consumed by _extract_traffic_adjusted_route:
duration (seconds) and distance (meters) plus the leg structures the
road-name extraction walks. An absent 'legs' key is the empty list; an
absent 'result' key is the empty list. -/
structure RouteData where
  duration : ℚ
  distance : ℚ
  legs : List Leg
  result : List ResultItem
deriving Repr, DecidableEq

/-- A matched segment: join of a traffic reading with its network link,
as built by match_traffic_to_route (src/route_processor.py lines 90-103). -/
structure MatchedSegment where
  link_id : String
  start_lng : ℚ
  start_lat : ℚ
  end_lng : ℚ
  end_lat : ℚ
  length_m : ℚ
  distance_to_route_m : ℚ
  current_speed : ℚ
  travel_time : ℚ
  road_name : String
  created_date : String
deriving Repr, DecidableEq

/-- Python's `needle in haystack` on lists of characters:
true when needle occurs as a contiguous run of haystack. -/
def contains_list (needle : List Char) : List Char → Bool
  | [] => needle.isEmpty
  | c :: rest => starts_with_list needle (c :: rest) || contains_list needle rest
where
  starts_with_list : List Char → List Char → Bool
    | [], _ => true
    | _ :: _, [] => false
    | a :: as, b :: bs => a == b && starts_with_list as bs

/-- Python's `sub in s` on strings. -/
def py_in (sub s : String) : Bool :=
  contains_list sub.data s.data

/-- Python's str.lower, character by character (structural recursion so
concrete instances evaluate). -/
def str_lower (s : String) : String :=
  ⟨s.data.map Char.toLower⟩

/-- The per-segment relevance test of _extract_traffic_adjusted_route
(src/api.py line 418): the lowered feed road name contains, or is contained
in, some lowered route road name. -/
def road_relevant (route_roads : List String) (road_name : String) : Bool :=
  let rn := str_lower road_name
  route_roads.any fun route_road =>
    py_in (str_lower route_road) rn || py_in rn (str_lower route_road)

/-- The relevance filter of _extract_traffic_adjusted_route
(src/api.py lines 408-422): with a non-empty route-road list keep the
segments passing road_relevant; with an empty list every segment is kept
(the fail-open fallback branch). -/
def route_specific_traffic (route_roads : List String)
    (matched : List MatchedSegment) : List MatchedSegment :=
  matched.filter fun m =>
    if route_roads.isEmpty then true
    else road_relevant route_roads m.road_name

/-- Append a road name unless already collected: models insertion into
the Python set road_names (order of the final list is irrelevant
downstream, where only membership and emptiness are consulted). -/
def add_road_name (acc : List String) (n : String) : List String :=
  if n ∈ acc then acc else acc ++ [n]

/-- Collect step names from a list of legs, skipping empty and 'unnamed'
names (src/api.py lines 366-373 and 385-392). -/
def collect_leg_roads (acc : List String) (legs : List Leg) : List String :=
  legs.foldl (fun acc leg =>
    leg.steps.foldl (fun acc st =>
      if st.name ≠ "" ∧ st.name ≠ "unnamed" then add_road_name acc st.name
      else acc) acc) acc

/-- _extract_route_roads (src/api.py lines 358-394): walks the direct legs
and then the nested result[0].routes[0].legs, collecting distinct road
names. -/
def extract_route_roads (rd : RouteData) : List String :=
  let acc := collect_leg_roads [] rd.legs
  let nested_legs :=
    match rd.result with
    | [] => []
    | ri :: _ =>
      match ri.routes with
      | [] => []
      | r :: _ => r.legs
  collect_leg_roads acc nested_legs

/-- Minimum of a list of rationals, as Python's min over a non-empty list;
0 on the empty list (never consulted there by the source). -/
def list_min : List ℚ → ℚ
  | [] => 0
  | x :: xs => xs.foldl min x

/-- Maximum of a list of rationals, as Python's max over a non-empty list;
0 on the empty list (never consulted there by the source). -/
def list_max : List ℚ → ℚ
  | [] => 0
  | x :: xs => xs.foldl max x

/-- The output record of _extract_traffic_adjusted_route. Fields present
in only one of the two branches are Options. -/
structure TrafficAdjusted where
  duration_seconds : ℚ
  distance_meters : ℚ
  average_speed_kmh : ℚ
  time_difference_seconds : ℚ
  time_difference_percent : ℚ
  traffic_segments : ℕ
  total_traffic_segments_in_area : Option ℕ
  traffic_coverage : String
  speed_range : Option (ℚ × ℚ)
  note : Option String
deriving Repr, DecidableEq

/-- _extract_traffic_adjusted_route (src/api.py lines 396-461): filter the
matched segments to route-relevant ones; if none remain, return the
original duration with zero deltas and coverage no_relevant_data;
otherwise average the relevant speeds and recompute the duration from
distance/average speed when the average is positive, falling back to the
original duration otherwise. The empty-branch average-speed field divides
by duration/3600 with no guard in the source; rational division totalizes
that expression here, and extract_traffic_adjusted_route_checked below
keeps the raise at duration 0 explicit. -/
def extract_traffic_adjusted_route (rd : RouteData)
    (matched_traffic : List MatchedSegment) : TrafficAdjusted :=
  let route_roads := extract_route_roads rd
  let route_specific := route_specific_traffic route_roads matched_traffic
  if route_specific.isEmpty then
    { duration_seconds := rd.duration
      distance_meters := rd.distance
      average_speed_kmh := (rd.distance / 1000) / (rd.duration / 3600)
      time_difference_seconds := 0
      time_difference_percent := 0
      traffic_segments := 0
      total_traffic_segments_in_area := none
      traffic_coverage := "no_relevant_data"
      speed_range := none
      note := some "No traffic data found for the specific route roads" }
  else
    let traffic_speeds := route_specific.map (fun m => m.current_speed)
    let avg_traffic_speed := traffic_speeds.sum / (traffic_speeds.length : ℚ)
    let route_distance_km := rd.distance / 1000
    let traffic_duration :=
      if avg_traffic_speed > 0 then (route_distance_km / avg_traffic_speed) * 3600
      else rd.duration
    { duration_seconds := traffic_duration
      distance_meters := rd.distance
      average_speed_kmh := avg_traffic_speed
      time_difference_seconds := traffic_duration - rd.duration
      time_difference_percent :=
        if rd.duration > 0 then (traffic_duration - rd.duration) / rd.duration * 100
        else 0
      traffic_segments := route_specific.length
      total_traffic_segments_in_area := some matched_traffic.length
      traffic_coverage :=
        if route_specific.length < matched_traffic.length then "partial" else "good"
      speed_range := some (list_min traffic_speeds, list_max traffic_speeds)
      note := none }

/-- The condition classification of _extract_traffic_adjusted_route_simple
(src/api.py lines 576-584). -/
def classify_condition (time_diff_pct : ℚ) : String :=
  if time_diff_pct > 20 then "heavy_delay"
  else if time_diff_pct > 10 then "moderate_delay"
  else if time_diff_pct < -10 then "faster_than_expected"
  else "normal"

/-- The simplified output record of _extract_traffic_adjusted_route_simple. -/
structure SimpleAdjusted where
  duration_seconds : ℚ
  time_difference_seconds : ℚ
  time_difference_minutes : ℚ
  traffic_condition : String
  average_speed_kmh : ℚ
deriving Repr, DecidableEq

/-- _extract_traffic_adjusted_route_simple (src/api.py lines 564-592) on a
present analysis result: the not-traffic_adjusted branch is unreachable
there because _extract_traffic_adjusted_route returns a record whenever the
result is present. -/
def extract_traffic_adjusted_route_simple (rd : RouteData)
    (matched_traffic : List MatchedSegment) : SimpleAdjusted :=
  let traffic_adjusted := extract_traffic_adjusted_route rd matched_traffic
  { duration_seconds := traffic_adjusted.duration_seconds
    time_difference_seconds := traffic_adjusted.time_difference_seconds
    time_difference_minutes := traffic_adjusted.time_difference_seconds / 60
    traffic_condition := classify_condition traffic_adjusted.time_difference_percent
    average_speed_kmh := traffic_adjusted.average_speed_kmh }

/-- A traffic reading as extracted from one API item (src/route_processor.py
lines 65-101): an absent linkId is modelled as the empty string (both are
falsy in Python); absent speed/travelTime default to 0; absent roadName and
createdDate default to the empty string. -/
structure TrafficItem where
  linkId : String
  speed : ℚ
  travelTime : ℚ
  roadName : String
  createdDate : String
deriving Repr, DecidableEq

/-- The traffic API response document: some list under body.items or under
data, either possibly absent (src/route_processor.py lines 37-41). -/
structure TrafficData where
  body_items : Option (List TrafficItem)
  data : Option (List TrafficItem)
deriving Repr, DecidableEq

/-- Extraction of the item list from the response (src/route_processor.py
lines 37-41): body.items when present, else data when present, else none
found. -/
def extract_traffic_items (td : TrafficData) : List TrafficItem :=
  match td.body_items with
  | some items => items
  | none =>
    match td.data with
    | some items => items
    | none => []

/-- The route_geometry argument of match_traffic_to_route: either an
encoded polyline string or a structured GeoJSON-like record whose
coordinates are (longitude, latitude) pairs (src/route_processor.py
lines 50-54). -/
inductive RouteGeometryInput
  | encoded (s : String)
  | structured (coordinates : List (ℚ × ℚ))
deriving Repr, DecidableEq

/-- _decode_polyline_simple (src/route_processor.py lines 132-138): the
source is a stub that returns the empty coordinate list for every encoded
polyline. -/
def decode_polyline_simple (_encoded_polyline : String) : List (ℚ × ℚ) :=
  []

/-- _coords_to_linestring_wkt (src/route_processor.py lines 117-130):
None on fewer than 2 coordinates, else a WKT LINESTRING text. Each
modelled coordinate has exactly two components, so the inner ≥2-component
guard always passes. -/
def coords_to_linestring_wkt (coords : List (ℚ × ℚ)) : Option String :=
  if coords.length < 2 then none
  else
    let coord_pairs := coords.map fun c => toString c.1 ++ " " ++ toString c.2
    if coord_pairs.length < 2 then none
    else some ("LINESTRING(" ++ String.intercalate ", " coord_pairs ++ ")")

/-- The row a link query returns (src/route_processor.py lines 74-76). -/
structure LinkRow where
  start_lng : ℚ
  start_lat : ℚ
  end_lng : ℚ
  end_lat : ℚ
  length_m : ℚ
  distance_to_route_m : ℚ
deriving Repr, DecidableEq

/-- Outcome of executing one candidate query: a database error
(psycopg2.Error), a successful execution with no row fetched, or a fetched
row. -/
inductive QueryOutcome
  | qerror
  | noRow
  | row (r : LinkRow)
deriving Repr, DecidableEq

/-- The abstract network-geometry store: given the route WKT (None when the
source passed a None linestring), the buffer distance, the index of the
candidate query in table_queries, and the link id, produce the outcome of
cur.execute + fetchone. -/
def LinkStore : Type :=
  Option String → ℚ → ℕ → String → QueryOutcome

/-- The inner candidate loop of match_traffic_to_route
(src/route_processor.py lines 79-87): scan the fixed candidate list in
order; a psycopg2 error or an empty fetch both move to the next candidate;
the first fetched row wins; None when every candidate fails. -/
def try_table_queries (run : ℕ → QueryOutcome) : List ℕ → Option LinkRow
  | [] => none
  | q :: rest =>
    match run q with
    | .qerror => try_table_queries run rest
    | .noRow => try_table_queries run rest
    | .row r => some r

/-- The fixed prioritized candidate list (src/route_processor.py lines
73-77): moct_link.link_id, moct_link_table.linkid, links.link_id. -/
def table_query_candidates : List ℕ :=
  [0, 1, 2]

/-- The per-item matching loop of match_traffic_to_route
(src/route_processor.py lines 65-106): skip items with a falsy linkId;
otherwise run the candidate queries and, when a row is found, append the
joined matched segment; items whose candidates all fail are dropped and
the loop continues with the remaining items. -/
def process_traffic_items (db : LinkStore) (route_wkt : Option String)
    (buffer_distance : ℚ) : List TrafficItem → List MatchedSegment
  | [] => []
  | item :: rest =>
    if item.linkId = "" then process_traffic_items db route_wkt buffer_distance rest
    else
      match try_table_queries (fun q => db route_wkt buffer_distance q item.linkId)
          table_query_candidates with
      | none => process_traffic_items db route_wkt buffer_distance rest
      | some r =>
        { link_id := item.linkId
          start_lng := r.start_lng
          start_lat := r.start_lat
          end_lng := r.end_lng
          end_lat := r.end_lat
          length_m := r.length_m
          distance_to_route_m := r.distance_to_route_m
          current_speed := item.speed
          travel_time := item.travelTime
          road_name := item.roadName
          created_date := item.createdDate } ::
        process_traffic_items db route_wkt buffer_distance rest

/-- The matched list of match_traffic_to_route before the final sort
(src/route_processor.py lines 29-109): empty when no traffic items were
found or no route coordinates are available (the early returns), else the
per-item loop's output in input order. -/
def match_traffic_unsorted (db : LinkStore) (route_geometry : RouteGeometryInput)
    (traffic_data : TrafficData) (buffer_distance : ℚ) : List MatchedSegment :=
  let traffic_items := extract_traffic_items traffic_data
  if traffic_items.isEmpty then []
  else
    let route_coords :=
      match route_geometry with
      | .encoded s => decode_polyline_simple s
      | .structured coords => coords
    if route_coords.isEmpty then []
    else
      let route_wkt := coords_to_linestring_wkt route_coords
      process_traffic_items db route_wkt buffer_distance traffic_items

/-- The comparison key of the final sort (src/route_processor.py line 112):
by distance_to_route_m. -/
def dist_le (a b : MatchedSegment) : Bool :=
  a.distance_to_route_m ≤ b.distance_to_route_m

/-- match_traffic_to_route (src/route_processor.py lines 29-115): the
matched list sorted ascending by distance to route with Python's stable
list.sort (the early returns produce the empty list, on which the sort is
the identity). -/
def match_traffic_to_route (db : LinkStore) (route_geometry : RouteGeometryInput)
    (traffic_data : TrafficData) (buffer_distance : ℚ) : List MatchedSegment :=
  (match_traffic_unsorted db route_geometry traffic_data buffer_distance).mergeSort dist_le

/-- Round-half-even to an integer, as Python's float formatting rounds. -/
def round_half_even (q : ℚ) : ℤ :=
  let f := Int.floor q
  let frac := q - f
  if frac < 1 / 2 then f
  else if frac > 1 / 2 then f + 1
  else if f % 2 = 0 then f else f + 1

/-- Python's '{x:.1f}' format of a rational, one decimal digit. -/
def fmt_1f (q : ℚ) : String :=
  let n := round_half_even (q * 10)
  let sign := if n < 0 then "-" else ""
  let m := n.natAbs
  sign ++ toString (m / 10) ++ "." ++ toString (m % 10)

/-- _generate_recommendations (src/api.py lines 594-640) on a present
analysis result: the no-relevant-data advisory block returns early;
otherwise one time-delta advisory, then (for a non-empty relevant set) a
flow-quality note by average speed and a low-coverage note when fewer than
a tenth of the area segments were relevant. -/
def generate_recommendations (rd : RouteData)
    (matched_traffic : List MatchedSegment) : List String :=
  let traffic_adjusted := extract_traffic_adjusted_route rd matched_traffic
  if traffic_adjusted.traffic_coverage = "no_relevant_data" then
    ["No traffic data available for the specific roads on this route",
     "Route uses local roads that may not be monitored by traffic systems",
     "Use original route time estimate"]
  else
    let time_diff_minutes := traffic_adjusted.time_difference_seconds / 60
    let traffic_segments := traffic_adjusted.traffic_segments
    let base :=
      if traffic_segments = 0 then
        ["Limited traffic data available for this route",
         "Use original route time estimate with caution"]
      else if time_diff_minutes > 5 then
        ["Expect " ++ fmt_1f time_diff_minutes ++
           " minutes longer than planned due to traffic",
         "Consider departing earlier or finding an alternative route"]
      else if time_diff_minutes < -2 then
        ["Traffic is flowing well - you may arrive " ++
           fmt_1f |time_diff_minutes| ++ " minutes earlier"]
      else
        ["Current traffic conditions are close to normal expectations"]
    let flow :=
      if traffic_segments > 0 then
        let avg_speed := traffic_adjusted.average_speed_kmh
        let quality :=
          if avg_speed < 20 then ["Heavy traffic detected on monitored segments"]
          else if avg_speed < 30 then ["Moderate traffic on monitored segments"]
          else ["Good traffic flow on monitored segments"]
        let total_segments := traffic_adjusted.total_traffic_segments_in_area.getD 0
        let coverage :=
          if (traffic_segments : ℚ) < (total_segments : ℚ) * (1 / 10) then
            ["Limited coverage: only " ++ toString traffic_segments ++
               " relevant traffic segments found"]
          else []
        quality ++ coverage
      else []
    base ++ flow

/-- The relevant (route-specific) segment list an analysis result is
aggregated from: the relevance filter applied to the road names extracted
for the route. -/
def relevant_segments (rd : RouteData) (matched : List MatchedSegment) :
    List MatchedSegment :=
  route_specific_traffic (extract_route_roads rd) matched

/-- The mean of the relevant segments' speeds, as computed by
_extract_traffic_adjusted_route in its non-empty branch. -/
def average_relevant_speed (rd : RouteData) (matched : List MatchedSegment) : ℚ :=
  ((relevant_segments rd matched).map (fun m => m.current_speed)).sum /
    (((relevant_segments rd matched).map (fun m => m.current_speed)).length : ℚ)

/-- C10: the traffic-adjusted extraction never changes the route distance:
distance_meters equals the original route distance in both the
no-relevant-data branch and the non-empty relevant branch. -/
theorem extract_traffic_adjusted_route_distance_unchanged
    (rd : RouteData) (matched_traffic : List MatchedSegment) :
    (extract_traffic_adjusted_route rd matched_traffic).distance_meters = rd.distance := by
  by_cases hE : (route_specific_traffic (extract_route_roads rd) matched_traffic).isEmpty
  · simp [extract_traffic_adjusted_route, hE]
  · simp [extract_traffic_adjusted_route, hE]

/-- C5: the relevance filter with an empty route-road set is the identity:
every matched segment passes through as relevant, in input order. -/
theorem route_specific_traffic_empty_roads_identity
    (matched : List MatchedSegment) :
    route_specific_traffic [] matched = matched := by
  simp [route_specific_traffic]

/-- _extract_traffic_adjusted_route with Python's partiality kept explicit:
the empty-relevant branch computes
average_speed_kmh = (distance/1000) / (duration/3600) with no guard
(src/api.py line 429), so when duration/3600 is zero — in the rational
model exactly when duration is 0 — the source raises ZeroDivisionError and
no record is returned; None models that raise. Every division in the
non-empty branch is guarded in the source (the mean divides by a length
of at least 1, the duration recomputation sits behind avg > 0 and the
percentage behind duration > 0), so there the total model's record is the
source's return value. -/
def extract_traffic_adjusted_route_checked (rd : RouteData)
    (matched_traffic : List MatchedSegment) : Option TrafficAdjusted :=
  let route_roads := extract_route_roads rd
  let route_specific := route_specific_traffic route_roads matched_traffic
  if route_specific.isEmpty then
    if rd.duration / 3600 = 0 then none
    else some (extract_traffic_adjusted_route rd matched_traffic)
  else some (extract_traffic_adjusted_route rd matched_traffic)

/-- A route whose only extracted road name is Main Street. -/
def demo_route : RouteData :=
  { duration := 600
    distance := 9000
    legs := [{ steps := [{ name := "Main Street" }] }]
    result := [] }

/-- A matched segment on an unrelated road, 12 m from the route. -/
def demo_offroute_segment : MatchedSegment :=
  { link_id := "L1"
    start_lng := 126
    start_lat := 37
    end_lng := 127
    end_lat := 38
    length_m := 250
    distance_to_route_m := 12
    current_speed := 45
    travel_time := 20
    road_name := "Ocean Drive"
    created_date := "2024-01-01"
    }

/-- The demo route with a zero planned duration. -/
def demo_zero_duration_route : RouteData :=
  { duration := 0
    distance := 9000
    legs := [{ steps := [{ name := "Main Street" }] }]
    result := [] }

/-- C1: at a zero original duration with an empty relevant list (the single
matched segment is on an unrelated road), the extraction hits the
unguarded average-speed division of the empty-relevant branch and raises
instead of returning the no-relevant-data record the claim describes. -/
theorem extract_traffic_adjusted_route_zero_duration_raises :
    extract_traffic_adjusted_route_checked demo_zero_duration_route
      [demo_offroute_segment] = none := by
  have h : route_specific_traffic (extract_route_roads demo_zero_duration_route)
      [demo_offroute_segment] = [] := by decide
  have hd : demo_zero_duration_route.duration = 0 := rfl
  simp [extract_traffic_adjusted_route_checked, h, hd]

/-- C2: with a non-empty relevant list the aggregator's average speed is the
mean of the relevant speeds; the adjusted duration is
(distance/1000 / average) * 3600 when the average is positive and the
original duration otherwise, so in this rational model the division is only
ever taken at a positive average and the result is a finite rational. -/
theorem extract_traffic_adjusted_route_nonempty_relevant
    (rd : RouteData) (matched_traffic : List MatchedSegment)
    (h : relevant_segments rd matched_traffic ≠ []) :
    (extract_traffic_adjusted_route rd matched_traffic).average_speed_kmh
        = average_relevant_speed rd matched_traffic ∧
    (0 < average_relevant_speed rd matched_traffic →
      (extract_traffic_adjusted_route rd matched_traffic).duration_seconds
        = rd.distance / 1000 / average_relevant_speed rd matched_traffic * 3600) ∧
    (¬ 0 < average_relevant_speed rd matched_traffic →
      (extract_traffic_adjusted_route rd matched_traffic).duration_seconds
        = rd.duration) := by
  unfold relevant_segments at h
  have hE : (route_specific_traffic (extract_route_roads rd) matched_traffic).isEmpty
      = false := List.isEmpty_eq_false.mpr h
  unfold average_relevant_speed relevant_segments
  simp only [extract_traffic_adjusted_route, hE, Bool.false_eq_true, if_false]
  refine ⟨by trivial, fun hpos => ?_, fun hnp => ?_⟩
  · show (if _ > (0 : ℚ) then _ else _) = _
    rw [if_pos hpos]
  · show (if _ > (0 : ℚ) then _ else _) = _
    rw [if_neg hnp]

/-- A matched segment on the demo route's Main Street at 30 km/h. -/
def demo_onroute_segment_a : MatchedSegment :=
  { link_id := "L2"
    start_lng := 126
    start_lat := 37
    end_lng := 127
    end_lat := 38
    length_m := 300
    distance_to_route_m := 4
    current_speed := 30
    travel_time := 36
    road_name := "Main Street"
    created_date := "2024-01-01"
    }

/-- A matched segment on the demo route's Main Street at 50 km/h. -/
def demo_onroute_segment_b : MatchedSegment :=
  { link_id := "L3"
    start_lng := 126
    start_lat := 37
    end_lng := 127
    end_lat := 38
    length_m := 500
    distance_to_route_m := 7
    current_speed := 50
    travel_time := 36
    road_name := "main street"
    created_date := "2024-01-01"
    }

/-- Witness for C2: two relevant Main Street segments with speeds 30 and 50. -/
theorem extract_traffic_adjusted_route_nonempty_relevant_witness :
    (extract_traffic_adjusted_route demo_route
        [demo_onroute_segment_a, demo_onroute_segment_b]).average_speed_kmh
      = average_relevant_speed demo_route [demo_onroute_segment_a, demo_onroute_segment_b] ∧
    (0 < average_relevant_speed demo_route [demo_onroute_segment_a, demo_onroute_segment_b] →
      (extract_traffic_adjusted_route demo_route
          [demo_onroute_segment_a, demo_onroute_segment_b]).duration_seconds
        = demo_route.distance / 1000
            / average_relevant_speed demo_route [demo_onroute_segment_a, demo_onroute_segment_b]
            * 3600) ∧
    (¬ 0 < average_relevant_speed demo_route [demo_onroute_segment_a, demo_onroute_segment_b] →
      (extract_traffic_adjusted_route demo_route
          [demo_onroute_segment_a, demo_onroute_segment_b]).duration_seconds
        = demo_route.duration) :=
  extract_traffic_adjusted_route_nonempty_relevant demo_route
    [demo_onroute_segment_a, demo_onroute_segment_b] (by decide)

/-- C6: the traffic-condition classification uses strict thresholds on the
time-delta percent: heavy_delay exactly above 20 (20 itself is not heavy),
moderate_delay strictly above 10 up to 20, faster_than_expected strictly
below -10, and normal on the whole closed band in between. -/
theorem classify_condition_strict_thresholds (pct : ℚ) :
    (classify_condition pct = "heavy_delay" ↔ 20 < pct) ∧
    (classify_condition pct = "moderate_delay" ↔ (10 < pct ∧ pct ≤ 20)) ∧
    (classify_condition pct = "faster_than_expected" ↔ pct < -10) ∧
    (classify_condition pct = "normal" ↔ (-10 ≤ pct ∧ pct ≤ 10)) := by
  unfold classify_condition
  split_ifs with h1 h2 h3
  · exact ⟨iff_of_true rfl h1,
      iff_of_false (by decide) (fun hc => absurd h1 (not_lt.mpr hc.2)),
      iff_of_false (by decide) (fun hc => by linarith),
      iff_of_false (by decide) (fun hc => by linarith [hc.2])⟩
  · exact ⟨iff_of_false (by decide) h1,
      iff_of_true rfl ⟨h2, le_of_not_lt h1⟩,
      iff_of_false (by decide) (fun hc => by linarith),
      iff_of_false (by decide) (fun hc => by linarith [hc.2])⟩
  · exact ⟨iff_of_false (by decide) (fun hc => by linarith),
      iff_of_false (by decide) (fun hc => by linarith [hc.1]),
      iff_of_true rfl h3,
      iff_of_false (by decide) (fun hc => by linarith [hc.1])⟩
  · exact ⟨iff_of_false (by decide) h1,
      iff_of_false (by decide) (fun hc => h2 hc.1),
      iff_of_false (by decide) h3,
      iff_of_true rfl ⟨le_of_not_lt h3, le_of_not_lt h2⟩⟩

/-- C9: when the coverage of the analysis is no_relevant_data, the
recommendation list is exactly the three-line no-data advisory block and
generation stops: no time-delta advisory, flow-quality note or coverage
note is appended. -/
theorem generate_recommendations_no_relevant_data
    (rd : RouteData) (matched_traffic : List MatchedSegment)
    (h : (extract_traffic_adjusted_route rd matched_traffic).traffic_coverage
      = "no_relevant_data") :
    generate_recommendations rd matched_traffic =
      ["No traffic data available for the specific roads on this route",
       "Route uses local roads that may not be monitored by traffic systems",
       "Use original route time estimate"] := by
  simp [generate_recommendations, h]

/-- Witness for C9: the demo route with only an off-route segment has
coverage no_relevant_data and gets exactly the advisory block. -/
theorem generate_recommendations_no_relevant_data_witness :
    generate_recommendations demo_route [demo_offroute_segment] =
      ["No traffic data available for the specific roads on this route",
       "Route uses local roads that may not be monitored by traffic systems",
       "Use original route time estimate"] :=
  generate_recommendations_no_relevant_data demo_route [demo_offroute_segment] (by decide)

/-- dist_le is transitive (as the Boolean sort key on matched segments). -/
theorem dist_le_trans (a b c : MatchedSegment) :
    dist_le a b → dist_le b c → dist_le a c := by
  simp only [dist_le, decide_eq_true_eq]
  exact le_trans

/-- dist_le is total. -/
theorem dist_le_total (a b : MatchedSegment) : dist_le a b || dist_le b a := by
  simp only [dist_le, Bool.or_eq_true, decide_eq_true_eq]
  exact le_total _ _

/-- C4: the matched-segment list returned by match_traffic_to_route is
sorted non-decreasing by distance to route; it is a permutation of the
pre-sort matched list (built in input order); and the sort is stable: any
chain of segments already in non-decreasing key order inside the pre-sort
list keeps its relative order in the output, so ties stay in input order.
The function itself is deterministic for identical inputs. -/
theorem match_traffic_to_route_sorted_stable
    (db : LinkStore) (route_geometry : RouteGeometryInput)
    (traffic_data : TrafficData) (buffer_distance : ℚ) :
    (match_traffic_to_route db route_geometry traffic_data buffer_distance).Pairwise
        (fun a b => a.distance_to_route_m ≤ b.distance_to_route_m) ∧
    (match_traffic_to_route db route_geometry traffic_data buffer_distance).Perm
        (match_traffic_unsorted db route_geometry traffic_data buffer_distance) ∧
    ∀ c : List MatchedSegment,
      c.Pairwise (fun a b => a.distance_to_route_m ≤ b.distance_to_route_m) →
      c.Sublist (match_traffic_unsorted db route_geometry traffic_data buffer_distance) →
      c.Sublist (match_traffic_to_route db route_geometry traffic_data buffer_distance) := by
  refine ⟨?_, List.mergeSort_perm _ _, ?_⟩
  · have hs := List.sorted_mergeSort dist_le_trans dist_le_total
      (match_traffic_unsorted db route_geometry traffic_data buffer_distance)
    exact hs.imp (by simp only [dist_le, decide_eq_true_eq]; exact id)
  · intro c hc hsub
    exact List.sublist_mergeSort dist_le_trans dist_le_total
      (hc.imp (by simp only [dist_le, decide_eq_true_eq]; exact id)) hsub

/-- C7: the schema-fallback policy of the per-reading candidate loop: a
candidate that errors is skipped in favour of the rest of the fixed
prioritized list; the first candidate that yields a row determines the
result; and a reading all of whose candidates fail is dropped while the
remaining readings keep being processed. -/
theorem table_query_fallback_policy :
    (∀ (run : ℕ → QueryOutcome) (q : ℕ) (rest : List ℕ),
      run q = QueryOutcome.qerror →
      try_table_queries run (q :: rest) = try_table_queries run rest) ∧
    (∀ (run : ℕ → QueryOutcome) (q : ℕ) (rest : List ℕ) (r : LinkRow),
      run q = QueryOutcome.row r →
      try_table_queries run (q :: rest) = some r) ∧
    (∀ (db : LinkStore) (wkt : Option String) (buf : ℚ)
      (item : TrafficItem) (rest : List TrafficItem),
      try_table_queries (fun q => db wkt buf q item.linkId) table_query_candidates
          = none →
      process_traffic_items db wkt buf (item :: rest)
        = process_traffic_items db wkt buf rest) := by
  refine ⟨?_, ?_, ?_⟩
  · intro run q rest hq
    simp [try_table_queries, hq]
  · intro run q rest r hq
    simp [try_table_queries, hq]
  · intro db wkt buf item rest hnone
    by_cases hid : item.linkId = ""
    · simp [process_traffic_items, hid]
    · simp [process_traffic_items, hid, hnone]

/-- C3: an encoded-polyline geometry is decoded by the stub to the empty
coordinate list, so match_traffic_to_route returns the empty matched list
as a normal successful result for every encoded geometry — no error is
reported for an undecodable polyline. -/
theorem match_traffic_to_route_encoded_geometry_empty
    (db : LinkStore) (s : String) (traffic_data : TrafficData)
    (buffer_distance : ℚ) :
    match_traffic_to_route db (RouteGeometryInput.encoded s) traffic_data
      buffer_distance = [] := by
  simp [match_traffic_to_route, match_traffic_unsorted, decode_polyline_simple, ite_self]

/-- When no candidate ever yields a row, the candidate loop returns None. -/
theorem try_table_queries_none (run : ℕ → QueryOutcome)
    (hrun : ∀ q r, run q ≠ QueryOutcome.row r) (l : List ℕ) :
    try_table_queries run l = none := by
  induction l with
  | nil => rfl
  | cons q rest ih =>
    unfold try_table_queries
    cases hq : run q with
    | qerror => exact ih
    | noRow => exact ih
    | row r => exact absurd hq (hrun q r)

/-- When no query against the store ever yields a row, every reading is
dropped and the per-item loop returns the empty list. -/
theorem process_traffic_items_all_fail (db : LinkStore) (wkt : Option String)
    (buf : ℚ) (items : List TrafficItem)
    (hdb : ∀ q link r, db wkt buf q link ≠ QueryOutcome.row r) :
    process_traffic_items db wkt buf items = [] := by
  induction items with
  | nil => rfl
  | cons item rest ih =>
    by_cases hid : item.linkId = ""
    · simp [process_traffic_items, hid, ih]
    · have hnone := try_table_queries_none (fun q => db wkt buf q item.linkId)
        (fun q r => hdb q item.linkId r) table_query_candidates
      simp [process_traffic_items, hid, hnone, ih]

/-- C8: a structured geometry with fewer than 2 coordinates makes
_coords_to_linestring_wkt return None, which match_traffic_to_route never
checks: under the store's NULL-geometry semantics (a None route line never
yields a row) the match returns the empty list as a normal successful
result instead of failing with an invalid-geometry error. -/
theorem match_traffic_to_route_short_geometry_empty_success
    (db : LinkStore) (coords : List (ℚ × ℚ)) (traffic_data : TrafficData)
    (buffer_distance : ℚ)
    (hshort : coords.length < 2)
    (hnull : ∀ q link r, db none buffer_distance q link ≠ QueryOutcome.row r) :
    match_traffic_to_route db (RouteGeometryInput.structured coords) traffic_data
      buffer_distance = [] := by
  have hwkt : coords_to_linestring_wkt coords = none := by
    unfold coords_to_linestring_wkt
    rw [if_pos hshort]
  unfold match_traffic_to_route match_traffic_unsorted
  by_cases hItems : (extract_traffic_items traffic_data).isEmpty
  · simp [hItems]
  · by_cases hCoords : coords.isEmpty
    · simp [hItems, hCoords]
    · simp [hItems, hCoords, hwkt,
        process_traffic_items_all_fail db none buffer_distance
          (extract_traffic_items traffic_data) hnull]

/-- A store that never yields a row for any query. -/
def demo_empty_store : LinkStore :=
  fun _ _ _ _ => QueryOutcome.noRow

/-- A traffic batch with a single reading under body.items. -/
def demo_traffic_data : TrafficData :=
  { body_items := some [{ linkId := "1000"
                          speed := 35
                          travelTime := 42
                          roadName := "Main Street"
                          createdDate := "2024-01-01" }]
    data := none }

/-- Witness for C8: a one-coordinate geometry with a live batch returns the
empty matched list as a successful result. -/
theorem match_traffic_to_route_short_geometry_empty_success_witness :
    match_traffic_to_route demo_empty_store
      (RouteGeometryInput.structured [(126, 37)]) demo_traffic_data 50 = [] :=
  match_traffic_to_route_short_geometry_empty_success demo_empty_store
    [(126, 37)] demo_traffic_data 50 (by decide)
    (fun _ _ _ h => QueryOutcome.noConfusion h)
